import Mathlib

/-
  Verification of libstratcom (src/src/stratcom.cpp): a driver for a USB HID
  device with 12 buttons, a 3-position slider, three 10-bit axes and
  controllable LEDs.  The development below is a shallow embedding of the
  report codec, the LED-state cache setter and the event-diff engine.
  Machine integers (uint8_t, uint16_t) are modelled as Nat with explicit
  16-bit masking where the C code relies on uint16_t truncation; signed
  axis words are modelled as Int.
-/

/-- Return codes of the library (stratcom_return in the public header). -/
inductive stratcom_return where
  | STRATCOM_RET_SUCCESS
  | STRATCOM_RET_ERROR
  | STRATCOM_RET_NO_DATA
deriving DecidableEq

/-- The three positions of the device slider (stratcom_slider_state). -/
inductive stratcom_slider_state where
  | STRATCOM_SLIDER_1
  | STRATCOM_SLIDER_2
  | STRATCOM_SLIDER_3
deriving DecidableEq

/-- The three analog axes (stratcom_axis). -/
inductive stratcom_axis where
  | STRATCOM_AXIS_X
  | STRATCOM_AXIS_Y
  | STRATCOM_AXIS_Z
deriving DecidableEq

/-- The logical buttons of the device (stratcom_button), twelve real buttons
plus the NONE sentinel that ends the iteration range. -/
inductive stratcom_button where
  | STRATCOM_BUTTON_1
  | STRATCOM_BUTTON_2
  | STRATCOM_BUTTON_3
  | STRATCOM_BUTTON_4
  | STRATCOM_BUTTON_5
  | STRATCOM_BUTTON_6
  | STRATCOM_BUTTON_PLUS
  | STRATCOM_BUTTON_MINUS
  | STRATCOM_BUTTON_SHIFT1
  | STRATCOM_BUTTON_SHIFT2
  | STRATCOM_BUTTON_SHIFT3
  | STRATCOM_BUTTON_REC
  | STRATCOM_BUTTON_NONE
deriving DecidableEq

/-- Modelled from the spec: the numeric enum values of stratcom_button live in
the public header, which is not under src.  The spec (section 3) describes the
button state as a 12-bit bitmask over the 12 logical buttons, in the canonical
order button-1..button-6, plus, minus, shift1..shift3, rec; accordingly the
k-th button of the canonical order is modelled as bit k, and NONE as 0. -/
def stratcom_button.mask : stratcom_button → Nat
  | .STRATCOM_BUTTON_1      => 0x0001
  | .STRATCOM_BUTTON_2      => 0x0002
  | .STRATCOM_BUTTON_3      => 0x0004
  | .STRATCOM_BUTTON_4      => 0x0008
  | .STRATCOM_BUTTON_5      => 0x0010
  | .STRATCOM_BUTTON_6      => 0x0020
  | .STRATCOM_BUTTON_PLUS   => 0x0040
  | .STRATCOM_BUTTON_MINUS  => 0x0080
  | .STRATCOM_BUTTON_SHIFT1 => 0x0100
  | .STRATCOM_BUTTON_SHIFT2 => 0x0200
  | .STRATCOM_BUTTON_SHIFT3 => 0x0400
  | .STRATCOM_BUTTON_REC    => 0x0800
  | .STRATCOM_BUTTON_NONE   => 0x0000

/-- The 7-byte HID input report (struct input_report); each field is one
uint8_t byte of the report. -/
structure input_report where
  b0 : Nat
  b1 : Nat
  b2 : Nat
  b3 : Nat
  b4 : Nat
  b5 : Nat
  b6 : Nat
deriving DecidableEq

/-- The cached input-state snapshot (stratcom_input_state): button bitmask,
slider position and the three signed axis values. -/
structure stratcom_input_state where
  buttons : Nat
  slider : stratcom_slider_state
  axisX : Int
  axisY : Int
  axisZ : Int
deriving DecidableEq

/-- Embedding of evaluateInputReport (stratcom.cpp lines 321-377): decode one
input report into the cached snapshot.  Reports whose b0 byte is not 0x01 are
rejected with STRATCOM_RET_ERROR and the snapshot is returned unmodified; the
C original mutates the snapshot in place, which is modelled by returning the
new snapshot alongside the return code. -/
def evaluateInputReport (report : input_report)
    (input_state : stratcom_input_state) :
    stratcom_return × stratcom_input_state :=
  if report.b0 ≠ 0x01 then
    (.STRATCOM_RET_ERROR, input_state)
  else
    let buttons : Nat := ((report.b6 &&& 0x0F) <<< 8) ||| report.b5
    let slider : stratcom_slider_state :=
      if (report.b6 &&& 0x30) = 0x30 then .STRATCOM_SLIDER_1
      else if report.b6 &&& 0x20 ≠ 0 then .STRATCOM_SLIDER_2
      else .STRATCOM_SLIDER_3
    let rawX : Nat := ((report.b2 &&& 0x03) <<< 8) ||| report.b1
    let axisX : Int :=
      if rawX &&& 0x200 ≠ 0 then -(((rawX ^^^ 0x3FF) + 1 : Nat) : Int)
      else (rawX : Int)
    let rawY : Nat := ((report.b3 &&& 0x0f) <<< 6) ||| ((report.b2 &&& 0xfc) >>> 2)
    let axisY : Int :=
      if rawY &&& 0x200 ≠ 0 then -(((rawY ^^^ 0x3FF) + 1 : Nat) : Int)
      else (rawY : Int)
    let rawZ : Nat := ((report.b4 &&& 0x3f) <<< 4) ||| ((report.b3 &&& 0xf0) >>> 4)
    let axisZ : Int :=
      if rawZ &&& 0x200 ≠ 0 then -(((rawZ ^^^ 0x3FF) + 1 : Nat) : Int)
      else (rawZ : Int)
    (.STRATCOM_RET_SUCCESS,
     { buttons := buttons, slider := slider,
       axisX := axisX, axisY := axisY, axisZ := axisZ })

/-- Outcome of one hid_read / hid_read_timeout call on the transport: a full
7-byte report, no data available, or a transport failure. -/
inductive hid_read_result where
  | report (r : input_report)
  | no_data
  | failure
deriving DecidableEq

/-- Embedding of stratcom_read_input (lines 380-390): a blocking hid_read that
returns a full report is decoded via evaluateInputReport; anything else is an
error.  The transport outcome is passed as an explicit argument. -/
def stratcom_read_input (read_res : hid_read_result)
    (input_state : stratcom_input_state) :
    stratcom_return × stratcom_input_state :=
  match read_res with
  | .report r => evaluateInputReport r input_state
  | _ => (.STRATCOM_RET_ERROR, input_state)

/-- Embedding of stratcom_read_input_with_timeout (lines 392-403). -/
def stratcom_read_input_with_timeout (read_res : hid_read_result)
    (input_state : stratcom_input_state) :
    stratcom_return × stratcom_input_state :=
  match read_res with
  | .report r => evaluateInputReport r input_state
  | .failure => (.STRATCOM_RET_ERROR, input_state)
  | .no_data => (.STRATCOM_RET_NO_DATA, input_state)

/-- Embedding of stratcom_read_input_non_blocking (lines 405-416). -/
def stratcom_read_input_non_blocking (read_res : hid_read_result)
    (input_state : stratcom_input_state) :
    stratcom_return × stratcom_input_state :=
  match read_res with
  | .report r => evaluateInputReport r input_state
  | .failure => (.STRATCOM_RET_ERROR, input_state)
  | .no_data => (.STRATCOM_RET_NO_DATA, input_state)

/-- stratcom_iterate_buttons_range_begin (lines 444-447). -/
def stratcom_iterate_buttons_range_begin : stratcom_button :=
  .STRATCOM_BUTTON_1

/-- stratcom_iterate_buttons_range_end (lines 449-452). -/
def stratcom_iterate_buttons_range_end : stratcom_button :=
  .STRATCOM_BUTTON_NONE

/-- stratcom_iterate_buttons_range_increment (lines 454-472): successor in the
canonical button order; the default branch of the switch maps every other
value (only STRATCOM_BUTTON_NONE in the enum) to STRATCOM_BUTTON_NONE. -/
def stratcom_iterate_buttons_range_increment :
    stratcom_button → stratcom_button
  | .STRATCOM_BUTTON_1      => .STRATCOM_BUTTON_2
  | .STRATCOM_BUTTON_2      => .STRATCOM_BUTTON_3
  | .STRATCOM_BUTTON_3      => .STRATCOM_BUTTON_4
  | .STRATCOM_BUTTON_4      => .STRATCOM_BUTTON_5
  | .STRATCOM_BUTTON_5      => .STRATCOM_BUTTON_6
  | .STRATCOM_BUTTON_6      => .STRATCOM_BUTTON_PLUS
  | .STRATCOM_BUTTON_PLUS   => .STRATCOM_BUTTON_MINUS
  | .STRATCOM_BUTTON_MINUS  => .STRATCOM_BUTTON_SHIFT1
  | .STRATCOM_BUTTON_SHIFT1 => .STRATCOM_BUTTON_SHIFT2
  | .STRATCOM_BUTTON_SHIFT2 => .STRATCOM_BUTTON_SHIFT3
  | .STRATCOM_BUTTON_SHIFT3 => .STRATCOM_BUTTON_REC
  | .STRATCOM_BUTTON_REC    => .STRATCOM_BUTTON_NONE
  | .STRATCOM_BUTTON_NONE   => .STRATCOM_BUTTON_NONE

/-- Fuel-bounded unfolding of the C for-loop header
(b = begin; b != end; b = increment(b)): the list of buttons visited. -/
def buttons_range_from : Nat → stratcom_button → List stratcom_button
  | 0, _ => []
  | fuel + 1, b =>
      if b = stratcom_iterate_buttons_range_end then []
      else b :: buttons_range_from fuel (stratcom_iterate_buttons_range_increment b)

/-- The buttons visited by the canonical iteration loop, in visiting order. -/
def buttons_range : List stratcom_button :=
  buttons_range_from 13 stratcom_iterate_buttons_range_begin

/-- One input event (struct stratcom_input_event): the type tag together with
the matching member of the desc union; the next pointers of the C linked list
become the structure of a Lean list. -/
inductive stratcom_input_event where
  | slider_event (status : stratcom_slider_state)
  | axis_event (axis : stratcom_axis) (status : Int)
  | button_event (button : stratcom_button) (status : Nat)
deriving DecidableEq

/-- The button loop of stratcom_create_input_events_from_states
(lines 502-515): walk the canonical button range, and for every button whose
masked state differs between old and new push a button event onto the front
of the accumulated list (ev-next = ret; ret = ev). -/
def button_events_loop (old_state new_state : stratcom_input_state) :
    List stratcom_button → List stratcom_input_event →
    List stratcom_input_event
  | [], ret => ret
  | b :: bs, ret =>
      button_events_loop old_state new_state bs
        (if (old_state.buttons &&& b.mask) ≠ (new_state.buttons &&& b.mask) then
           stratcom_input_event.button_event b
             (if new_state.buttons &&& b.mask = 0 then 0 else 1) :: ret
         else ret)

/-- Embedding of stratcom_create_input_events_from_states (lines 474-519),
successful-allocation path: each event is allocated and pushed onto the front
of ret (ev-next = ret; ret = ev), first the slider event, then axisX, axisY,
axisZ, then the changed buttons in canonical order. -/
def stratcom_create_input_events_from_states
    (old_state new_state : stratcom_input_state) :
    List stratcom_input_event :=
  let ret : List stratcom_input_event := []
  let ret :=
    if old_state.slider ≠ new_state.slider then
      stratcom_input_event.slider_event new_state.slider :: ret
    else ret
  let evaluate_axis_states := fun (ret : List stratcom_input_event)
      (old_val new_val : Int) (axis : stratcom_axis) =>
    if old_val ≠ new_val then
      stratcom_input_event.axis_event axis new_val :: ret
    else ret
  let ret := evaluate_axis_states ret old_state.axisX new_state.axisX
    .STRATCOM_AXIS_X
  let ret := evaluate_axis_states ret old_state.axisY new_state.axisY
    .STRATCOM_AXIS_Y
  let ret := evaluate_axis_states ret old_state.axisZ new_state.axisZ
    .STRATCOM_AXIS_Z
  let ret :=
    if old_state.buttons ≠ new_state.buttons then
      button_events_loop old_state new_state buttons_range ret
    else ret
  ret

/-- Embedding of stratcom_free_input_events (lines 532-539): walking the list
and deleting every node; the observable effect in the model is the number of
nodes released. -/
def stratcom_free_input_events (events : List stratcom_input_event) : Nat :=
  events.length

/-- Embedding of stratcom_append_input_events_from_states (lines 521-530):
generate the diff sublist, walk the next pointers of the existing list to its
tail, link the sublist there, and return the sublist.  On the list value the
tail-link is exactly appending.  On an empty list the C code dereferences a
null pointer (undefined behaviour), modelled as none.  The result pairs the
whole linked structure reachable from the original head with the returned
pointer to the new sublist. -/
def stratcom_append_input_events_from_states
    (events : List stratcom_input_event)
    (old_state new_state : stratcom_input_state) :
    Option (List stratcom_input_event × List stratcom_input_event) :=
  match events with
  | [] => none
  | _ :: _ =>
      let new_events :=
        stratcom_create_input_events_from_states old_state new_state
      some (events ++ new_events, new_events)

/-- The button LED selectors (stratcom_button_led): seven physical button
LEDs plus the ALL and NONE pseudo-selectors. -/
inductive stratcom_button_led where
  | STRATCOM_LEDBUTTON_1
  | STRATCOM_LEDBUTTON_2
  | STRATCOM_LEDBUTTON_3
  | STRATCOM_LEDBUTTON_4
  | STRATCOM_LEDBUTTON_5
  | STRATCOM_LEDBUTTON_6
  | STRATCOM_LEDBUTTON_REC
  | STRATCOM_LEDBUTTON_ALL
  | STRATCOM_LEDBUTTON_NONE
deriving DecidableEq

/-- Modelled from the spec: the numeric enum values of stratcom_button_led
live in the public header, which is not under src.  The spec (section 3)
describes the LED word as a 16-bit mask with two bits per button, the low bit
meaning on and the next bit meaning blink, for up to 7 physical buttons, and
the source comments (stratcom.cpp lines 224-234) state that the enum values
are the bitmasks of the LED-on bits.  Accordingly the k-th physical LED gets
the on-bit 4 to the power (k-1), ALL is the union of all on-bits, NONE is
zero. -/
def stratcom_button_led.mask : stratcom_button_led → Nat
  | .STRATCOM_LEDBUTTON_1    => 0x0001
  | .STRATCOM_LEDBUTTON_2    => 0x0004
  | .STRATCOM_LEDBUTTON_3    => 0x0010
  | .STRATCOM_LEDBUTTON_4    => 0x0040
  | .STRATCOM_LEDBUTTON_5    => 0x0100
  | .STRATCOM_LEDBUTTON_6    => 0x0400
  | .STRATCOM_LEDBUTTON_REC  => 0x1000
  | .STRATCOM_LEDBUTTON_ALL  => 0x1555
  | .STRATCOM_LEDBUTTON_NONE => 0x0000

/-- True for the seven selectors naming one physical button LED, false for
the ALL and NONE pseudo-selectors. -/
def stratcom_button_led.is_physical : stratcom_button_led → Bool
  | .STRATCOM_LEDBUTTON_ALL  => false
  | .STRATCOM_LEDBUTTON_NONE => false
  | _ => true

/-- The tri-state of one button LED (stratcom_led_state). -/
inductive stratcom_led_state where
  | STRATCOM_LED_ON
  | STRATCOM_LED_BLINK
  | STRATCOM_LED_OFF
deriving DecidableEq

/-- Embedding of stratcom_set_button_led_state_without_flushing
(stratcom.cpp lines 200-220): a pure mask transformation of the cached
16-bit LED word.  For BLINK the on-bits of the selector are cleared and its
blink-bits set; for ON the blink-bits are cleared and the on-bits set; for
OFF both are cleared.  The uint16_t and-not operations of the C code are
modelled with an explicit 16-bit mask. -/
def stratcom_set_button_led_state_without_flushing (led_button_state : Nat)
    (led : stratcom_button_led) (state : stratcom_led_state) : Nat :=
  let button_mask := led.mask
  match state with
  | .STRATCOM_LED_BLINK =>
      (led_button_state &&& (0xFFFF ^^^ button_mask)) ||| (button_mask <<< 1)
  | .STRATCOM_LED_ON =>
      (led_button_state &&& (0xFFFF ^^^ (button_mask <<< 1))) ||| button_mask
  | .STRATCOM_LED_OFF =>
      (led_button_state &&& (0xFFFF ^^^ button_mask)) &&&
        (0xFFFF ^^^ (button_mask <<< 1))

/-- A list of LED setter calls applied in order to a cached LED word. -/
def apply_led_calls (m : Nat)
    (calls : List (stratcom_button_led × stratcom_led_state)) : Nat :=
  calls.foldl
    (fun acc c => stratcom_set_button_led_state_without_flushing acc c.1 c.2) m

/-- The LED word does not have both the on-bit and the blink-bit of the given
selector set. -/
def led_not_both (led : stratcom_button_led) (m : Nat) : Prop :=
  m &&& led.mask = 0 ∨ m &&& (led.mask <<< 1) = 0

/-- The 3-byte feature report (struct feature_report). -/
structure feature_report where
  b0 : Nat
  b1 : Nat
  b2 : Nat
deriving DecidableEq

/-- The report serialized by stratcom_flush_button_led_state
(stratcom.cpp lines 236-239): b0 = 0x01, b1 = low byte of the cached LED
word, b2 = high byte. -/
def stratcom_flush_button_led_state_report (led_button_state : Nat) :
    feature_report :=
  { b0 := 0x01,
    b1 := led_button_state &&& 0xff,
    b2 := (led_button_state >>> 8) &&& 0xff }

/-- The LED word recovered by stratcom_read_button_led_state
(stratcom.cpp lines 286-287) from a feature report: b1 or b2 shifted left
by 8, the b0 report id being ignored. -/
def stratcom_read_button_led_state_decode (rep : feature_report) : Nat :=
  rep.b1 ||| (rep.b2 <<< 8)

theorem and_mask_zero (m D C : Nat) (h : D &&& C = 0) : (m &&& D) &&& C = 0 := by
  rw [Nat.and_assoc, h, Nat.and_zero]

theorem mask_eq_zero (m D : Nat) (h : D = 0) : m &&& D = 0 := by
  rw [h, Nat.and_zero]

theorem mask_congr (m D C : Nat) (h : D = C) : m &&& D = m &&& C := by rw [h]

theorem or_mask_zero (m D x C : Nat) (h1 : D &&& C = 0) (h2 : x &&& C = 0) :
    ((m &&& D) ||| x) &&& C = 0 := by
  rw [Nat.and_distrib_right, and_mask_zero m D C h1, h2, Nat.or_zero]

theorem or_mask_frame (m D x C : Nat) (h1 : D &&& C = C) (h2 : x &&& C = 0) :
    ((m &&& D) ||| x) &&& C = m &&& C := by
  rw [Nat.and_distrib_right, Nat.and_assoc, h1, h2, Nat.or_zero]

/-- One setter call preserves per-button on/blink exclusivity: for a physical
button LED b, if the word does not have both bits of b set, it still does not
after any stratcom_set_button_led_state_without_flushing call, whatever its
selector and state. -/
theorem set_led_preserves_not_both (b led : stratcom_button_led)
    (st : stratcom_led_state) (m : Nat)
    (hb : b.is_physical = true) (h : led_not_both b m) :
    led_not_both b (stratcom_set_button_led_state_without_flushing m led st) := by
  cases b <;> cases led <;> cases st <;>
    first
    | exact absurd hb (by decide)
    | (simp only [led_not_both, stratcom_set_button_led_state_without_flushing,
        stratcom_button_led.mask, Nat.and_assoc] at h ⊢
       first
       | exact Or.inl (or_mask_zero _ _ _ _ (by decide) (by decide))
       | exact Or.inr (or_mask_zero _ _ _ _ (by decide) (by decide))
       | exact Or.inl (mask_eq_zero _ _ (by decide))
       | exact Or.inr (mask_eq_zero _ _ (by decide))
       | exact h.imp
           (fun h0 => (or_mask_frame _ _ _ _ (by decide) (by decide)).trans h0)
           (fun h0 => (or_mask_frame _ _ _ _ (by decide) (by decide)).trans h0)
       | exact h.imp
           (fun h0 => (mask_congr _ _ _ (by decide)).trans h0)
           (fun h0 => (mask_congr _ _ _ (by decide)).trans h0))

/-- A setter call on a physical button LED b leaves the word without both
bits of b set, whatever the word held before. -/
theorem set_led_not_both_self (b : stratcom_button_led)
    (st : stratcom_led_state) (m : Nat) (hb : b.is_physical = true) :
    led_not_both b (stratcom_set_button_led_state_without_flushing m b st) := by
  cases b <;> cases st <;>
    first
    | exact absurd hb (by decide)
    | (simp only [led_not_both, stratcom_set_button_led_state_without_flushing,
        stratcom_button_led.mask, Nat.and_assoc]
       first
       | exact Or.inl (or_mask_zero _ _ _ _ (by decide) (by decide))
       | exact Or.inr (or_mask_zero _ _ _ _ (by decide) (by decide))
       | exact Or.inl (mask_eq_zero _ _ (by decide))
       | exact Or.inr (mask_eq_zero _ _ (by decide)))

/-- A whole list of setter calls preserves per-button exclusivity. -/
theorem apply_led_calls_preserves_not_both (b : stratcom_button_led)
    (calls : List (stratcom_button_led × stratcom_led_state)) (m : Nat)
    (hb : b.is_physical = true) (h : led_not_both b m) :
    led_not_both b (apply_led_calls m calls) := by
  induction calls generalizing m with
  | nil => exact h
  | cons c cs ih =>
      exact ih _ (set_led_preserves_not_both b c.1 c.2 m hb h)

/-- Setting a physical button LED to OFF clears both its on-bit and its
blink-bit, whatever the word held before. -/
theorem set_led_off_clears_both (b : stratcom_button_led) (m : Nat)
    (hb : b.is_physical = true) :
    (stratcom_set_button_led_state_without_flushing m b
        .STRATCOM_LED_OFF) &&& (b.mask ||| (b.mask <<< 1)) = 0 := by
  cases b <;>
    first
    | exact absurd hb (by decide)
    | (simp only [stratcom_set_button_led_state_without_flushing,
        stratcom_button_led.mask, Nat.and_assoc]
       exact mask_eq_zero _ _ (by decide))

/-- The sign-extension rule the spec states for a 10-bit two s-complement
raw axis value: if bit 0x200 is set the value is the negative of
((raw xor 0x3FF) + 1), otherwise the raw value itself. -/
def spec_axis_value (raw : Nat) : Int :=
  if raw &&& 0x200 ≠ 0 then -(((raw ^^^ 0x3FF) + 1 : Nat) : Int)
  else (raw : Int)

/-- The raw 10-bit axisX value as the spec words it. -/
def spec_axisX_raw (r : input_report) : Nat :=
  ((r.b2 &&& 0x03) <<< 8) ||| r.b1

/-- The raw 10-bit axisY value as the spec words it. -/
def spec_axisY_raw (r : input_report) : Nat :=
  ((r.b3 &&& 0x0F) <<< 6) ||| ((r.b2 &&& 0xFC) >>> 2)

/-- The raw 10-bit axisZ value as the spec words it. -/
def spec_axisZ_raw (r : input_report) : Nat :=
  ((r.b4 &&& 0x3F) <<< 4) ||| ((r.b3 &&& 0xF0) >>> 4)

/-- The slider decoding rule as the spec words it: Slider1 when both bits of
0x30 are set in byte 6, otherwise Slider2 when bit 0x20 is set, otherwise
Slider3. -/
def spec_slider_value (b6 : Nat) : stratcom_slider_state :=
  if b6 &&& 0x30 = 0x30 then .STRATCOM_SLIDER_1
  else if b6 &&& 0x20 ≠ 0 then .STRATCOM_SLIDER_2
  else .STRATCOM_SLIDER_3

/-- The changed-button events in canonical button order: one event per button
of the given range whose masked pressed-state differs between the snapshots,
in range order.  This is the claimed output order for the button part. -/
def button_events_filter (old_state new_state : stratcom_input_state) :
    List stratcom_button → List stratcom_input_event
  | [] => []
  | b :: bs =>
      if (old_state.buttons &&& b.mask) ≠ (new_state.buttons &&& b.mask) then
        stratcom_input_event.button_event b
          (if new_state.buttons &&& b.mask = 0 then 0 else 1) ::
          button_events_filter old_state new_state bs
      else button_events_filter old_state new_state bs

/-- The event list in the order claimed by the spec (section 4.3): the slider
event first (if the slider changed), then axisX, axisY, axisZ (each if
changed), then one event per changed button in canonical button order.  This
is also the order in which stratcom_create_input_events_from_states
constructs the events. -/
def spec_claimed_event_order (old_state new_state : stratcom_input_state) :
    List stratcom_input_event :=
  (if old_state.slider ≠ new_state.slider then
     [stratcom_input_event.slider_event new_state.slider] else []) ++
  (if old_state.axisX ≠ new_state.axisX then
     [stratcom_input_event.axis_event .STRATCOM_AXIS_X new_state.axisX]
   else []) ++
  (if old_state.axisY ≠ new_state.axisY then
     [stratcom_input_event.axis_event .STRATCOM_AXIS_Y new_state.axisY]
   else []) ++
  (if old_state.axisZ ≠ new_state.axisZ then
     [stratcom_input_event.axis_event .STRATCOM_AXIS_Z new_state.axisZ]
   else []) ++
  button_events_filter old_state new_state buttons_range

theorem button_events_loop_eq_reverse_filter
    (old_state new_state : stratcom_input_state) :
    ∀ (l : List stratcom_button) (ret : List stratcom_input_event),
      button_events_loop old_state new_state l ret =
        (button_events_filter old_state new_state l).reverse ++ ret := by
  intro l
  induction l with
  | nil => intro ret; simp [button_events_loop, button_events_filter]
  | cons b bs ih =>
      intro ret
      by_cases hc :
          (old_state.buttons &&& b.mask) ≠ (new_state.buttons &&& b.mask)
      · simp [button_events_loop, button_events_filter, hc, ih]
      · simp [button_events_loop, button_events_filter, hc, ih]

theorem button_events_filter_eq_nil_of_eq
    (old_state new_state : stratcom_input_state)
    (h : old_state.buttons = new_state.buttons) :
    ∀ l : List stratcom_button,
      button_events_filter old_state new_state l = [] := by
  intro l
  induction l with
  | nil => rfl
  | cons b bs ih => simp [button_events_filter, h, ih]

/-- The list built by stratcom_create_input_events_from_states is exactly the
reverse of the construction order (slider, axisX, axisY, axisZ, changed
buttons in canonical order), because every event is pushed onto the front of
the result list. -/
theorem create_events_eq_reverse_spec_order
    (old_state new_state : stratcom_input_state) :
    stratcom_create_input_events_from_states old_state new_state =
      (spec_claimed_event_order old_state new_state).reverse := by
  unfold stratcom_create_input_events_from_states spec_claimed_event_order
  by_cases h5 : old_state.buttons = new_state.buttons
  · simp [h5, button_events_filter_eq_nil_of_eq old_state new_state h5]
    split_ifs <;> simp
  · simp [h5, button_events_loop_eq_reverse_filter]
    split_ifs <;> simp

/-- True for slider events. -/
def is_slider_event : stratcom_input_event → Bool
  | .slider_event _ => true
  | _ => false

/-- True for axis events of the given axis. -/
def is_axis_event_for (a : stratcom_axis) : stratcom_input_event → Bool
  | .axis_event a2 _ => a2 == a
  | _ => false

/-- True for button events of the given button. -/
def is_button_event_for (b : stratcom_button) : stratcom_input_event → Bool
  | .button_event b2 _ => b2 == b
  | _ => false

theorem button_events_filter_no_slider
    (old_state new_state : stratcom_input_state) :
    ∀ l, (button_events_filter old_state new_state l).filter
      is_slider_event = [] := by
  intro l
  induction l with
  | nil => rfl
  | cons b bs ih =>
      by_cases hc :
          (old_state.buttons &&& b.mask) ≠ (new_state.buttons &&& b.mask)
      · simp [button_events_filter, hc, is_slider_event, ih]
      · simp [button_events_filter, hc, ih]

theorem button_events_filter_no_axis
    (old_state new_state : stratcom_input_state) (a : stratcom_axis) :
    ∀ l, (button_events_filter old_state new_state l).filter
      (is_axis_event_for a) = [] := by
  intro l
  induction l with
  | nil => rfl
  | cons b bs ih =>
      by_cases hc :
          (old_state.buttons &&& b.mask) ≠ (new_state.buttons &&& b.mask)
      · simp [button_events_filter, hc, is_axis_event_for, ih]
      · simp [button_events_filter, hc, ih]

theorem button_events_filter_not_mem
    (old_state new_state : stratcom_input_state) (b : stratcom_button) :
    ∀ l, b ∉ l → (button_events_filter old_state new_state l).filter
      (is_button_event_for b) = [] := by
  intro l
  induction l with
  | nil => intro _; rfl
  | cons c cs ih =>
      intro hmem
      have hcb : c ≠ b := fun h => hmem (h ▸ List.mem_cons_self c cs)
      have hbs : b ∉ cs := fun h => hmem (List.mem_cons_of_mem c h)
      by_cases hc :
          (old_state.buttons &&& c.mask) ≠ (new_state.buttons &&& c.mask)
      · simp [button_events_filter, hc, is_button_event_for, hcb, ih hbs]
      · simp [button_events_filter, hc, ih hbs]

theorem button_events_filter_count
    (old_state new_state : stratcom_input_state) (b : stratcom_button) :
    ∀ l, l.Nodup → b ∈ l →
      ((button_events_filter old_state new_state l).filter
        (is_button_event_for b)).length =
      (if (old_state.buttons &&& b.mask) = (new_state.buttons &&& b.mask)
       then 0 else 1) := by
  intro l
  induction l with
  | nil => intro _ hmem; cases hmem
  | cons c cs ih =>
      intro hnd hmem
      rcases List.mem_cons.1 hmem with hcb | hbs
      · subst hcb
        have hnotmem : b ∉ cs := (List.nodup_cons.1 hnd).1
        have hrest := button_events_filter_not_mem old_state new_state b cs
          hnotmem
        by_cases hc :
            (old_state.buttons &&& b.mask) ≠ (new_state.buttons &&& b.mask)
        · simp [button_events_filter, hc, is_button_event_for, hrest,
            if_neg hc]
        · simp only [ne_eq, Decidable.not_not] at hc
          simp [button_events_filter, hc, hrest]
      · have hcb : c ≠ b := by
          intro h
          exact (List.nodup_cons.1 hnd).1 (h ▸ hbs)
        have hnd2 : cs.Nodup := (List.nodup_cons.1 hnd).2
        by_cases hc :
            (old_state.buttons &&& c.mask) ≠ (new_state.buttons &&& c.mask)
        · simp [button_events_filter, hc, is_button_event_for, hcb,
            ih hnd2 hbs]
        · simp [button_events_filter, hc, ih hnd2 hbs]

/-- Allocation-aware model of the construction loop of
stratcom_create_input_events_from_states: the events are constructed in
order; constructing the event with sequence number k succeeds when
alloc_ok k is true, in which case the node is pushed onto the front of ret;
the first failed allocation throws bad_alloc, which the catch block handles
by releasing the whole partial list built so far and returning a null list.
The result carries the returned list (none on failure), the total number of
nodes allocated and the total number of nodes freed inside the call. -/
def alloc_build (alloc_ok : Nat → Bool) :
    List stratcom_input_event → Nat → List stratcom_input_event →
    Option (List stratcom_input_event) × Nat × Nat
  | [], k, ret => (some ret, k, 0)
  | e :: es, k, ret =>
      if alloc_ok k then alloc_build alloc_ok es (k + 1) (e :: ret)
      else (none, k, stratcom_free_input_events ret)

/-- stratcom_create_input_events_from_states under an explicit allocation
oracle: the events are constructed in the construction order (slider, axisX,
axisY, axisZ, changed buttons in canonical order) with one allocation each,
starting from an empty result list. -/
def stratcom_create_input_events_with_alloc (alloc_ok : Nat → Bool)
    (old_state new_state : stratcom_input_state) :
    Option (List stratcom_input_event) × Nat × Nat :=
  alloc_build alloc_ok (spec_claimed_event_order old_state new_state) 0 []

theorem alloc_build_cases (alloc_ok : Nat → Bool) :
    ∀ (es : List stratcom_input_event) (k : Nat)
      (ret : List stratcom_input_event),
      alloc_build alloc_ok es k ret = (some (es.reverse ++ ret), k + es.length, 0)
      ∨ ∃ j, alloc_build alloc_ok es k ret = (none, k + j, ret.length + j) := by
  intro es
  induction es with
  | nil => intro k ret; left; simp [alloc_build]
  | cons e es ih =>
      intro k ret
      by_cases hk : alloc_ok k = true
      · rcases ih (k + 1) (e :: ret) with h | ⟨j, h⟩
        · left
          rw [alloc_build, if_pos hk, h]
          simp [Nat.add_comm, Nat.add_assoc, Nat.add_left_comm]
        · right
          refine ⟨j + 1, ?_⟩
          rw [alloc_build, if_pos hk, h]
          simp [Nat.add_comm, Nat.add_assoc, Nat.add_left_comm]
      · right
        refine ⟨0, ?_⟩
        rw [alloc_build, if_neg hk]
        simp [stratcom_free_input_events]

deriving instance Fintype for stratcom_button

/-- Snapshot with every field zeroed (the initial memset state of the
device struct). -/
def zero_input_state : stratcom_input_state :=
  { buttons := 0, slider := .STRATCOM_SLIDER_1,
    axisX := 0, axisY := 0, axisZ := 0 }

/-- Test snapshot: slider moved to position 2 and axisX moved to 5. -/
def slider_axis_changed_state : stratcom_input_state :=
  { buttons := 0, slider := .STRATCOM_SLIDER_2,
    axisX := 5, axisY := 0, axisZ := 0 }

/-- Test snapshot: only button 3 newly pressed. -/
def button3_pressed_state : stratcom_input_state :=
  { buttons := 0x0004, slider := .STRATCOM_SLIDER_1,
    axisX := 0, axisY := 0, axisZ := 0 }

/-- C1, counterexample: with the slider and axisX both changed, the list
returned by stratcom_create_input_events_from_states is
[axisX event, slider event], while the claimed fixed order (slider first,
then axisX) would be [slider event, axisX event]; the claim as stated is
false at this input. -/
theorem stratcom_C1_counterexample :
    stratcom_create_input_events_from_states zero_input_state
        slider_axis_changed_state =
      [stratcom_input_event.axis_event .STRATCOM_AXIS_X 5,
       stratcom_input_event.slider_event .STRATCOM_SLIDER_2] ∧
    spec_claimed_event_order zero_input_state slider_axis_changed_state =
      [stratcom_input_event.slider_event .STRATCOM_SLIDER_2,
       stratcom_input_event.axis_event .STRATCOM_AXIS_X 5] ∧
    stratcom_create_input_events_from_states zero_input_state
        slider_axis_changed_state ≠
      spec_claimed_event_order zero_input_state slider_axis_changed_state := by
  decide

/-- C1, amended: stratcom_create_input_events_from_states constructs the
events in the claimed fixed order (slider if changed, then axisX, axisY,
axisZ if changed, then one event per changed button in canonical button
order), but pushes each event onto the front of the list, so the returned
list is exactly the reverse of that order: changed buttons in reverse
canonical order first, then axisZ, axisY, axisX, then the slider event
last. -/
theorem stratcom_C1_event_order (old_state new_state : stratcom_input_state) :
    stratcom_create_input_events_from_states old_state new_state =
      (spec_claimed_event_order old_state new_state).reverse :=
  create_events_eq_reverse_spec_order old_state new_state

/-- C2: a 7-byte input report whose byte 0 is not 0x01 makes
evaluateInputReport return STRATCOM_RET_ERROR and leave the cached snapshot
(every field) exactly as it was, through every read_input variant. -/
theorem stratcom_C2_bad_report_id (r : input_report)
    (st : stratcom_input_state) (h : r.b0 ≠ 0x01) :
    evaluateInputReport r st = (.STRATCOM_RET_ERROR, st) ∧
    stratcom_read_input (.report r) st = (.STRATCOM_RET_ERROR, st) ∧
    stratcom_read_input_with_timeout (.report r) st =
      (.STRATCOM_RET_ERROR, st) ∧
    stratcom_read_input_non_blocking (.report r) st =
      (.STRATCOM_RET_ERROR, st) := by
  have he : evaluateInputReport r st = (.STRATCOM_RET_ERROR, st) := by
    simp [evaluateInputReport, h]
  exact ⟨he, by simp [stratcom_read_input, he],
    by simp [stratcom_read_input_with_timeout, he],
    by simp [stratcom_read_input_non_blocking, he]⟩

/-- C2, witness at a concrete bad report. -/
theorem stratcom_C2_bad_report_id_witness :
    ({ b0 := 0, b1 := 0, b2 := 0, b3 := 0, b4 := 0, b5 := 0,
       b6 := 0 } : input_report).b0 ≠ 0x01 ∧
    evaluateInputReport
      { b0 := 0, b1 := 0, b2 := 0, b3 := 0, b4 := 0, b5 := 0, b6 := 0 }
      zero_input_state = (.STRATCOM_RET_ERROR, zero_input_state) := by
  refine ⟨by decide, ?_⟩
  exact (stratcom_C2_bad_report_id
    { b0 := 0, b1 := 0, b2 := 0, b3 := 0, b4 := 0, b5 := 0, b6 := 0 }
    zero_input_state (by decide)).1

/-- C3: serializing a 16-bit LED mask as the 3-byte feature report of
stratcom_flush_button_led_state (byte0 0x01, byte1 low 8 bits, byte2 high
8 bits) and decoding it as stratcom_read_button_led_state does
(b1 or b2 shifted left 8) yields the mask again. -/
theorem stratcom_C3_led_report_roundtrip (m : Nat) (h : m < 0x10000) :
    stratcom_read_button_led_state_decode
      (stratcom_flush_button_led_state_report m) = m ∧
    (stratcom_flush_button_led_state_report m).b0 = 0x01 := by
  refine ⟨?_, rfl⟩
  apply Nat.eq_of_testBit_eq
  intro i
  show ((m &&& 0xff) ||| (((m >>> 8) &&& 0xff) <<< 8)).testBit i = m.testBit i
  rw [show (0xff : Nat) = 2 ^ 8 - 1 by norm_num]
  rw [Nat.and_pow_two_sub_one_eq_mod, Nat.and_pow_two_sub_one_eq_mod]
  simp only [Nat.testBit_or, Nat.testBit_mod_two_pow, Nat.testBit_shiftLeft,
    Nat.testBit_shiftRight]
  rcases Nat.lt_or_ge i 8 with h8 | h8
  · simp [decide_eq_true h8, decide_eq_false (show ¬ i ≥ 8 by omega)]
  · rcases Nat.lt_or_ge i 16 with h16 | h16
    · simp [decide_eq_false (show ¬ i < 8 by omega), decide_eq_true h8,
        decide_eq_true (show i - 8 < 8 by omega),
        show 8 + (i - 8) = i by omega]
    · have h2 : m < 2 ^ 16 := by omega
      have hmi : m.testBit i = false :=
        Nat.testBit_lt_two_pow
          (lt_of_lt_of_le h2
            (Nat.pow_le_pow_right (show 0 < 2 by norm_num)
              (show 16 ≤ i by omega)))
      simp [decide_eq_false (show ¬ i < 8 by omega),
        decide_eq_false (show ¬ i - 8 < 8 by omega), hmi]

/-- C3, witness at mask 0xABCD. -/
theorem stratcom_C3_led_report_roundtrip_witness :
    (0xABCD : Nat) < 0x10000 ∧
    stratcom_read_button_led_state_decode
      (stratcom_flush_button_led_state_report 0xABCD) = 0xABCD := by
  refine ⟨by decide, ?_⟩
  exact (stratcom_C3_led_report_roundtrip 0xABCD (by decide)).1

/-- C4: for every starting LED word, any sequence of setter calls before
and after, and any physical button LED b: once a
stratcom_set_button_led_state_without_flushing call has targeted b (with
any state, in particular ON then BLINK as part of the surrounding call
lists), the resulting word never has both the on-bit and the blink-bit of b
set; and a call setting b to OFF clears both bits of b. -/
theorem stratcom_C4_led_exclusivity (m : Nat)
    (pre post : List (stratcom_button_led × stratcom_led_state))
    (b : stratcom_button_led) (st : stratcom_led_state)
    (hb : b.is_physical = true) :
    led_not_both b
      (apply_led_calls
        (stratcom_set_button_led_state_without_flushing
          (apply_led_calls m pre) b st) post) ∧
    (stratcom_set_button_led_state_without_flushing (apply_led_calls m pre)
        b .STRATCOM_LED_OFF) &&& (b.mask ||| (b.mask <<< 1)) = 0 :=
  ⟨apply_led_calls_preserves_not_both b post _ hb
      (set_led_not_both_self b st _ hb),
   set_led_off_clears_both b _ hb⟩

/-- C4, witness: starting from the word 0x0003 (both bits of LED 1 set),
setting LED 1 to ON and then LED 1 to BLINK leaves LED 1 exclusive, and
setting LED 1 to OFF clears both of its bits. -/
theorem stratcom_C4_led_exclusivity_witness :
    (stratcom_button_led.STRATCOM_LEDBUTTON_1).is_physical = true ∧
    (led_not_both .STRATCOM_LEDBUTTON_1
      (apply_led_calls
        (stratcom_set_button_led_state_without_flushing
          (apply_led_calls 0x0003 [])
          .STRATCOM_LEDBUTTON_1 .STRATCOM_LED_ON)
        [(.STRATCOM_LEDBUTTON_1, .STRATCOM_LED_BLINK)]) ∧
     (stratcom_set_button_led_state_without_flushing (apply_led_calls 0x0003 [])
        .STRATCOM_LEDBUTTON_1 .STRATCOM_LED_OFF) &&&
       ((stratcom_button_led.STRATCOM_LEDBUTTON_1).mask |||
        ((stratcom_button_led.STRATCOM_LEDBUTTON_1).mask <<< 1)) = 0) :=
  ⟨by decide,
   stratcom_C4_led_exclusivity 0x0003 []
     [(.STRATCOM_LEDBUTTON_1, .STRATCOM_LED_BLINK)]
     .STRATCOM_LEDBUTTON_1 .STRATCOM_LED_ON (by decide)⟩

/-- C5: for reports with byte 0 equal to 0x01, the decoded axis values equal
the 10-bit raw values the spec describes, sign-extended by the spec rule;
in particular raw 0x1FF decodes to 511 and raw 0x200 to -512. -/
theorem stratcom_C5_axis_decode (r : input_report)
    (st : stratcom_input_state) (h : r.b0 = 0x01) :
    ((evaluateInputReport r st).2.axisX =
        spec_axis_value (spec_axisX_raw r) ∧
     (evaluateInputReport r st).2.axisY =
        spec_axis_value (spec_axisY_raw r) ∧
     (evaluateInputReport r st).2.axisZ =
        spec_axis_value (spec_axisZ_raw r)) ∧
    spec_axis_value 0x1FF = 511 ∧
    spec_axis_value 0x200 = -512 ∧
    (evaluateInputReport
      { b0 := 0x01, b1 := 0xFF, b2 := 0x01, b3 := 0, b4 := 0, b5 := 0,
        b6 := 0 } zero_input_state).2.axisX = 511 ∧
    (evaluateInputReport
      { b0 := 0x01, b1 := 0x00, b2 := 0x02, b3 := 0, b4 := 0, b5 := 0,
        b6 := 0 } zero_input_state).2.axisX = -512 := by
  refine ⟨⟨?_, ?_, ?_⟩, by decide, by decide, by decide, by decide⟩ <;>
    simp [evaluateInputReport, spec_axis_value, spec_axisX_raw,
      spec_axisY_raw, spec_axisZ_raw, h]

/-- C5, witness at a concrete report with axisX raw value 0x1FF. -/
theorem stratcom_C5_axis_decode_witness :
    ({ b0 := 0x01, b1 := 0xFF, b2 := 0x01, b3 := 0, b4 := 0, b5 := 0,
       b6 := 0 } : input_report).b0 = 0x01 ∧
    (evaluateInputReport
      { b0 := 0x01, b1 := 0xFF, b2 := 0x01, b3 := 0, b4 := 0, b5 := 0,
        b6 := 0 } zero_input_state).2.axisX =
      spec_axis_value (spec_axisX_raw
        { b0 := 0x01, b1 := 0xFF, b2 := 0x01, b3 := 0, b4 := 0, b5 := 0,
          b6 := 0 }) :=
  ⟨rfl,
   (stratcom_C5_axis_decode
     { b0 := 0x01, b1 := 0xFF, b2 := 0x01, b3 := 0, b4 := 0, b5 := 0,
       b6 := 0 } zero_input_state rfl).1.1⟩

/-- C6: for reports with byte 0 equal to 0x01, the decoded slider state is
Slider1 when both bits of 0x30 are set in byte 6 (regardless of the other
bits of byte 6), otherwise Slider2 when bit 0x20 is set, otherwise Slider3;
the 0x30 test has priority over the 0x20 test. -/
theorem stratcom_C6_slider_decode (r : input_report)
    (st : stratcom_input_state) (h : r.b0 = 0x01) :
    (evaluateInputReport r st).2.slider = spec_slider_value r.b6 ∧
    (r.b6 &&& 0x30 = 0x30 →
      (evaluateInputReport r st).2.slider = .STRATCOM_SLIDER_1) := by
  constructor
  · simp [evaluateInputReport, spec_slider_value, h]
  · intro h30
    simp [evaluateInputReport, h, h30]

/-- C6, witness at a concrete report with byte 6 equal to 0x3F. -/
theorem stratcom_C6_slider_decode_witness :
    ({ b0 := 0x01, b1 := 0, b2 := 0, b3 := 0, b4 := 0, b5 := 0,
       b6 := 0x3F } : input_report).b0 = 0x01 ∧
    (evaluateInputReport
      { b0 := 0x01, b1 := 0, b2 := 0, b3 := 0, b4 := 0, b5 := 0,
        b6 := 0x3F } zero_input_state).2.slider =
      spec_slider_value 0x3F :=
  ⟨rfl,
   (stratcom_C6_slider_decode
     { b0 := 0x01, b1 := 0, b2 := 0, b3 := 0, b4 := 0, b5 := 0,
       b6 := 0x3F } zero_input_state rfl).1⟩

/-- C7: the event diff emits no event for an unchanged field and exactly one
button event per canonical button whose masked pressed-state differs;
identical snapshots give the empty list; and changing only button 3 from
released to pressed yields exactly the single Button event for button 3
with pressed status 1. -/
theorem stratcom_C7_event_diff_exactness
    (old_state new_state : stratcom_input_state) (b : stratcom_button)
    (hb : b ∈ buttons_range) :
    ((stratcom_create_input_events_from_states old_state new_state).filter
        is_slider_event).length =
      (if old_state.slider = new_state.slider then 0 else 1) ∧
    ((stratcom_create_input_events_from_states old_state new_state).filter
        (is_axis_event_for .STRATCOM_AXIS_X)).length =
      (if old_state.axisX = new_state.axisX then 0 else 1) ∧
    ((stratcom_create_input_events_from_states old_state new_state).filter
        (is_axis_event_for .STRATCOM_AXIS_Y)).length =
      (if old_state.axisY = new_state.axisY then 0 else 1) ∧
    ((stratcom_create_input_events_from_states old_state new_state).filter
        (is_axis_event_for .STRATCOM_AXIS_Z)).length =
      (if old_state.axisZ = new_state.axisZ then 0 else 1) ∧
    ((stratcom_create_input_events_from_states old_state new_state).filter
        (is_button_event_for b)).length =
      (if (old_state.buttons &&& b.mask) = (new_state.buttons &&& b.mask)
       then 0 else 1) ∧
    stratcom_create_input_events_from_states old_state old_state = [] ∧
    stratcom_create_input_events_from_states zero_input_state
        button3_pressed_state =
      [stratcom_input_event.button_event .STRATCOM_BUTTON_3 1] := by
  have hrw := create_events_eq_reverse_spec_order old_state new_state
  refine ⟨?_, ?_, ?_, ?_, ?_, ?_, by decide⟩
  · by_cases hs : old_state.slider = new_state.slider <;>
      simp [hrw, List.filter_reverse, spec_claimed_event_order,
        List.filter_append, apply_ite (List.filter is_slider_event),
        is_slider_event, button_events_filter_no_slider, hs]
  · by_cases ha : old_state.axisX = new_state.axisX <;>
      simp [hrw, List.filter_reverse, spec_claimed_event_order,
        List.filter_append,
        apply_ite (List.filter (is_axis_event_for .STRATCOM_AXIS_X)),
        is_axis_event_for, button_events_filter_no_axis, ha]
  · by_cases ha : old_state.axisY = new_state.axisY <;>
      simp [hrw, List.filter_reverse, spec_claimed_event_order,
        List.filter_append,
        apply_ite (List.filter (is_axis_event_for .STRATCOM_AXIS_Y)),
        is_axis_event_for, button_events_filter_no_axis, ha]
  · by_cases ha : old_state.axisZ = new_state.axisZ <;>
      simp [hrw, List.filter_reverse, spec_claimed_event_order,
        List.filter_append,
        apply_ite (List.filter (is_axis_event_for .STRATCOM_AXIS_Z)),
        is_axis_event_for, button_events_filter_no_axis, ha]
  · have hcount := button_events_filter_count old_state new_state b
      buttons_range (by decide) hb
    simp [hrw, List.filter_reverse, spec_claimed_event_order,
      List.filter_append, apply_ite (List.filter (is_button_event_for b)),
      is_button_event_for, hcount]
  · simp [create_events_eq_reverse_spec_order old_state old_state,
      spec_claimed_event_order,
      button_events_filter_eq_nil_of_eq old_state old_state rfl]

/-- C7, witness at the button-3 example snapshots and button 3. -/
theorem stratcom_C7_event_diff_exactness_witness :
    stratcom_button.STRATCOM_BUTTON_3 ∈ buttons_range ∧
    ((stratcom_create_input_events_from_states zero_input_state
        button3_pressed_state).filter
      (is_button_event_for .STRATCOM_BUTTON_3)).length =
      (if (zero_input_state.buttons &&&
            (stratcom_button.STRATCOM_BUTTON_3).mask) =
          (button3_pressed_state.buttons &&&
            (stratcom_button.STRATCOM_BUTTON_3).mask)
       then 0 else 1) :=
  ⟨by decide,
   (stratcom_C7_event_diff_exactness zero_input_state button3_pressed_state
     .STRATCOM_BUTTON_3 (by decide)).2.2.2.2.1⟩

/-- C8: under any allocation oracle, building the event list is
all-or-nothing: either some allocation fails, in which case no list is
returned and every node allocated during the call has been freed again, or
the full diff list is returned with nothing freed. -/
theorem stratcom_C8_alloc_all_or_nothing (alloc_ok : Nat → Bool)
    (old_state new_state : stratcom_input_state) :
    ((stratcom_create_input_events_with_alloc alloc_ok old_state
        new_state).1 = none ∧
     (stratcom_create_input_events_with_alloc alloc_ok old_state
        new_state).2.1 =
       (stratcom_create_input_events_with_alloc alloc_ok old_state
          new_state).2.2) ∨
    ((stratcom_create_input_events_with_alloc alloc_ok old_state
        new_state).1 =
       some (stratcom_create_input_events_from_states old_state new_state) ∧
     (stratcom_create_input_events_with_alloc alloc_ok old_state
        new_state).2.2 = 0) := by
  unfold stratcom_create_input_events_with_alloc
  rcases alloc_build_cases alloc_ok
      (spec_claimed_event_order old_state new_state) 0 [] with h | ⟨j, h⟩
  · right
    rw [h]
    simp [create_events_eq_reverse_spec_order]
  · left
    rw [h]
    simp

/-- C9: appending diff events to a non-empty existing list links the newly
generated sublist after the tail of the existing list, leaving every
existing node in place, and returns that sublist; on an empty list the C
code dereferences a null pointer, modelled as none. -/
theorem stratcom_C9_append_to_tail (events : List stratcom_input_event)
    (old_state new_state : stratcom_input_state) (h : events ≠ []) :
    stratcom_append_input_events_from_states events old_state new_state =
      some (events ++
          stratcom_create_input_events_from_states old_state new_state,
        stratcom_create_input_events_from_states old_state new_state) ∧
    stratcom_append_input_events_from_states [] old_state new_state =
      none := by
  constructor
  · cases events with
    | nil => exact absurd rfl h
    | cons e es => rfl
  · rfl

/-- C9, witness at a one-element existing list. -/
theorem stratcom_C9_append_to_tail_witness :
    ([stratcom_input_event.slider_event .STRATCOM_SLIDER_1] :
      List stratcom_input_event) ≠ [] ∧
    stratcom_append_input_events_from_states
        [stratcom_input_event.slider_event .STRATCOM_SLIDER_1]
        zero_input_state slider_axis_changed_state =
      some ([stratcom_input_event.slider_event .STRATCOM_SLIDER_1] ++
          stratcom_create_input_events_from_states zero_input_state
            slider_axis_changed_state,
        stratcom_create_input_events_from_states zero_input_state
          slider_axis_changed_state) :=
  ⟨by decide,
   (stratcom_C9_append_to_tail
     [stratcom_input_event.slider_event .STRATCOM_SLIDER_1]
     zero_input_state slider_axis_changed_state (by decide)).1⟩

/-- C10: the button iteration is total and terminating: starting from
stratcom_iterate_buttons_range_begin, repeated application of
stratcom_iterate_buttons_range_increment visits exactly the 12 canonical
buttons in order, reaches stratcom_iterate_buttons_range_end after 12
steps, the end value is a fixed point, and from every enum value the end is
reached within 12 steps. -/
theorem stratcom_C10_button_iteration :
    buttons_range =
      [.STRATCOM_BUTTON_1, .STRATCOM_BUTTON_2, .STRATCOM_BUTTON_3,
       .STRATCOM_BUTTON_4, .STRATCOM_BUTTON_5, .STRATCOM_BUTTON_6,
       .STRATCOM_BUTTON_PLUS, .STRATCOM_BUTTON_MINUS,
       .STRATCOM_BUTTON_SHIFT1, .STRATCOM_BUTTON_SHIFT2,
       .STRATCOM_BUTTON_SHIFT3, .STRATCOM_BUTTON_REC] ∧
    (List.range 12).map
      (fun k => stratcom_iterate_buttons_range_increment^[k]
        stratcom_iterate_buttons_range_begin) = buttons_range ∧
    stratcom_iterate_buttons_range_increment^[12]
        stratcom_iterate_buttons_range_begin =
      stratcom_iterate_buttons_range_end ∧
    stratcom_iterate_buttons_range_increment
        stratcom_iterate_buttons_range_end =
      stratcom_iterate_buttons_range_end ∧
    (∀ b : stratcom_button,
      stratcom_iterate_buttons_range_increment^[12] b =
        stratcom_iterate_buttons_range_end) := by
  decide
